import Mathlib

/-!
Shallow embedding of the youth-wisdom-avatars generation scripts: the
batch generator (generate-batch.js) and the targeted regeneration script.
The filesystem, the manifest and the HTTP response are modelled
explicitly; wall-clock timestamps are abstracted to natural-number
instants supplied by the driver loop, and the base64 transport decoding
performed at file-write time is abstracted away (payloads are carried as
the strings the scripts handle).
-/

namespace Avatars

/-- The filesystem: a map from path to file content. -/
def FS : Type := String → Option String

def fsWrite (fs : FS) (name content : String) : FS :=
  fun n => if n = name then some content else fs n

def fsExists (fs : FS) (name : String) : Bool :=
  (fs name).isSome

def emptyFS : FS := fun _ => none

/-- One character of the normalized filename: kept when it lies in
[a-z0-9], replaced by the separator otherwise, mirroring the global
regex replacement of characters outside [a-z0-9] with a dash. -/
def normChar (c : Char) : Char :=
  if ('a' ≤ c ∧ c ≤ 'z') ∨ ('0' ≤ c ∧ c ≤ '9') then c else '-'

/-- Characters of the lowercased, separator-normalized author name. -/
def normList (s : String) : List Char :=
  (s.data.map Char.toLower).map normChar

/-- normalizeFilename from both scripts: lowercase the author name,
replace every character outside [a-z0-9] with a dash, append ".png". -/
def normalizeFilename (s : String) : String :=
  ⟨normList s ++ ".png".data⟩

/-- JS String.prototype.replace with a string pattern: replace the first
occurrence only; when the pattern does not occur the string is returned
unchanged. -/
def replaceFirst : List Char → List Char → List Char → List Char
  | [], _, _ => []
  | c :: rest, pat, repl =>
    if List.isPrefixOf pat (c :: rest) then repl ++ (c :: rest).drop pat.length
    else c :: replaceFirst rest pat repl

/-- Backup path used by the regeneration script: the target path with its
first occurrence of ".png" replaced by ".backup.png". -/
def backupName (f : String) : String :=
  ⟨replaceFirst f.data ".png".data ".backup.png".data⟩

structure AvatarRecord where
  filename : String
  generated_at : Nat
  regenerated : Bool
deriving DecidableEq, Repr

structure Manifest where
  generated_at : Nat
  updated_at : Option Nat
  total_avatars : Nat
  avatars : List (String × AvatarRecord)
deriving DecidableEq, Repr

/-- Default manifest produced by loadManifest when no file is present. -/
def emptyManifest : Manifest :=
  { generated_at := 0, updated_at := none, total_avatars := 0, avatars := [] }

/-- JS object assignment manifest.avatars[author] = rec: replace the
record in place when the key already exists, append it otherwise. -/
def objInsert (l : List (String × AvatarRecord)) (k : String) (v : AvatarRecord) :
    List (String × AvatarRecord) :=
  match l with
  | [] => [(k, v)]
  | p :: rest => if p.1 = k then (k, v) :: rest else p :: objInsert rest k v

def manifestKeys (m : Manifest) : List String := m.avatars.map Prod.fst

/-- saveManifest from both scripts: stamp updated_at, recompute
total_avatars as the number of keys of the avatars mapping, and hand the
full document to persistent storage (the drivers record the persisted
copy). -/
def saveManifest (now : Nat) (m : Manifest) : Manifest :=
  { m with updated_at := some now, total_avatars := (m.avatars.map Prod.fst).length }

structure InlineData where
  data : Option String
deriving DecidableEq, Repr

structure ResponsePart where
  text : Option String := none
  inlineData : Option InlineData := none
deriving DecidableEq, Repr

structure CandidateContent where
  parts : Option (List ResponsePart)
deriving DecidableEq, Repr

structure Candidate where
  content : Option CandidateContent
deriving DecidableEq, Repr

/-- The transport-level view of one generation request's outcome: HTTP
status information plus the parsed JSON body. -/
structure ApiResponse where
  ok : Bool
  status : Nat
  bodyText : String
  candidates : Option (List Candidate)
deriving DecidableEq, Repr

/-- The optional chain data.candidates?.[0]?.content?.parts. -/
def responseParts (r : ApiResponse) : Option (List ResponsePart) :=
  ((r.candidates.bind List.head?).bind Candidate.content).bind CandidateContent.parts

def genFailed (msg : String) : String := "Generation failed: " ++ msg

/-- generateAvatar from both scripts, as a function of the response the
endpoint returns: a non-ok status, a missing parts chain, or a first
inlineData-carrying part without (nonempty) data each yield an error
wrapped with the "Generation failed: " prefix; otherwise the base64
payload of the first inlineData-carrying part is returned. The empty
string is rejected because the script tests the data field for JS
truthiness. -/
def generateAvatar (r : ApiResponse) : Except String String :=
  if r.ok = false then
    .error (genFailed ("API error: " ++ toString r.status ++ " - " ++ r.bodyText))
  else
    match responseParts r with
    | none => .error (genFailed "No parts in response")
    | some parts =>
      match parts.find? (fun p => p.inlineData.isSome) with
      | none => .error (genFailed "No image data in response")
      | some p =>
        match p.inlineData.bind InlineData.data with
        | none => .error (genFailed "No image data in response")
        | some d => if d = "" then .error (genFailed "No image data in response") else .ok d

/-- saveAvatar of the regeneration script: when a file already exists at
the target path it is first copied to the backup path, then the new
payload is written. Also returns the filename used and whether a backup
copy was made. -/
def saveAvatarT (fs : FS) (author data : String) : FS × String × Bool :=
  let filename := normalizeFilename author
  match fs filename with
  | some old => (fsWrite (fsWrite fs (backupName filename) old) filename data, filename, true)
  | none => (fsWrite fs filename data, filename, false)

/-- N successive successful regeneration passes over the same author,
with the payload of each pass given by the list; returns the final
filesystem and the number of backup copies performed. -/
def regenIter (fs : FS) (author : String) : List String → FS × Nat
  | [] => (fs, 0)
  | d :: ds =>
    let p := saveAvatarT fs author d
    let q := regenIter p.1 author ds
    (q.1, (if p.2.2 then 1 else 0) + q.2)

inductive RunOutcome
  | succeeded
  | skipped
  | failed
deriving DecidableEq, Repr

/-- In-memory state of the batch driver loop, together with the persisted
manifest copy and instrumentation (generation-call count, manifest-save
count, per-item outcome trace). -/
structure BatchSt where
  fs : FS
  manifest : Manifest
  persisted : Option Manifest
  successCount : Nat
  skipCount : Nat
  errorCount : Nat
  genCalls : Nat
  saveCount : Nat
  errors : List (String × String)
  trace : List RunOutcome

def initBatchSt (fs : FS) (m : Manifest) : BatchSt :=
  { fs := fs
    manifest := m
    persisted := none
    successCount := 0
    skipCount := 0
    errorCount := 0
    genCalls := 0
    saveCount := 0
    errors := []
    trace := [] }

/-- One iteration of the batch loop for the author at loop instant i.
The oracle gen gives the outcome of the try block up to the file write:
ok with the payload, or error with the caught message. A pre-existing
target file short-circuits to a skip without consulting the oracle. -/
def batchStep (gen : Nat → Except String String) (st : BatchSt) (i : Nat) (author : String) :
    BatchSt :=
  let filename := normalizeFilename author
  if fsExists st.fs filename then
    { st with skipCount := st.skipCount + 1, trace := st.trace ++ [RunOutcome.skipped] }
  else
    match gen i with
    | .ok data =>
      let fs2 := fsWrite st.fs filename data
      let m2 := { st.manifest with
        avatars := objInsert st.manifest.avatars author
          { filename := filename, generated_at := i, regenerated := false } }
      let saved := saveManifest i m2
      { st with
        fs := fs2
        manifest := saved
        persisted := some saved
        successCount := st.successCount + 1
        genCalls := st.genCalls + 1
        saveCount := st.saveCount + 1
        trace := st.trace ++ [RunOutcome.succeeded] }
    | .error e =>
      { st with
        errorCount := st.errorCount + 1
        genCalls := st.genCalls + 1
        errors := st.errors ++ [(author, e)]
        trace := st.trace ++ [RunOutcome.failed] }

/-- The batch loop over the remaining authors, starting at loop instant i. -/
def runBatchFrom (gen : Nat → Except String String) : Nat → List String → BatchSt → BatchSt
  | _, [], st => st
  | i, a :: rest, st => runBatchFrom gen (i + 1) rest (batchStep gen st i a)

/-- endIndex of the batch driver: min(start + limit, total) when a limit
was given (the flag defaults to 0, which means no limit), else total. -/
def endIndex (startIdx limit total : Nat) : Nat :=
  if limit > 0 then min (startIdx + limit) total else total

/-- authors.slice(startIndex, endIndex). -/
def authorsToProcess (authors : List String) (startIdx limit : Nat) : List String :=
  (authors.take (endIndex startIdx limit authors.length)).drop startIdx

/-- JS truthiness test on the credential: absent or empty means missing. -/
def keyMissing : Option String → Bool
  | none => true
  | some s => s = ""

/-- main of generate-batch.js: exit code 1 with no work done when the
credential is missing; otherwise run the loop over the selected range and
finish with exit code 0 (per-item failures are caught inside the loop). -/
def mainBatch (apiKey : Option String) (authors : List String) (startIdx limit : Nat)
    (fs : FS) (m : Manifest) (gen : Nat → Except String String) : Nat × BatchSt :=
  if keyMissing apiKey then (1, initBatchSt fs m)
  else (0, runBatchFrom gen 0 (authorsToProcess authors startIdx limit) (initBatchSt fs m))

/-- In-memory state of the targeted-regeneration loop. -/
structure TargetSt where
  fs : FS
  manifest : Manifest
  persisted : Option Manifest
  successCount : Nat
  errorCount : Nat
  genCalls : Nat
  saveCount : Nat
  backupCount : Nat
  errors : List (String × String)
  trace : List RunOutcome

def initTargetSt (fs : FS) (m : Manifest) : TargetSt :=
  { fs := fs
    manifest := m
    persisted := none
    successCount := 0
    errorCount := 0
    genCalls := 0
    saveCount := 0
    backupCount := 0
    errors := []
    trace := [] }

/-- One iteration of the regeneration loop: no existence check is made;
the generation oracle is always consulted, and on success the payload is
saved (backing up any prior file) and the manifest entry recorded with
the regenerated flag. -/
def targetStep (gen : Nat → Except String String) (st : TargetSt) (i : Nat) (author : String) :
    TargetSt :=
  match gen i with
  | .ok data =>
    let s := saveAvatarT st.fs author data
    let m2 := { st.manifest with
      avatars := objInsert st.manifest.avatars author
        { filename := s.2.1, generated_at := i, regenerated := true } }
    let saved := saveManifest i m2
    { st with
      fs := s.1
      manifest := saved
      persisted := some saved
      successCount := st.successCount + 1
      genCalls := st.genCalls + 1
      saveCount := st.saveCount + 1
      backupCount := st.backupCount + (if s.2.2 then 1 else 0)
      trace := st.trace ++ [RunOutcome.succeeded] }
  | .error e =>
    { st with
      errorCount := st.errorCount + 1
      genCalls := st.genCalls + 1
      errors := st.errors ++ [(author, e)]
      trace := st.trace ++ [RunOutcome.failed] }

def runTargetFrom (gen : Nat → Except String String) : Nat → List String → TargetSt → TargetSt
  | _, [], st => st
  | i, a :: rest, st => runTargetFrom gen (i + 1) rest (targetStep gen st i a)

/-- main of the regeneration script: the script exits 1 before main when
no names are supplied; main itself exits 1 when the credential is
missing; otherwise the loop runs and the process finishes with exit
code 0. -/
def mainTargeted (apiKey : Option String) (names : List String)
    (fs : FS) (m : Manifest) (gen : Nat → Except String String) : Nat × TargetSt :=
  if names.isEmpty then (1, initTargetSt fs m)
  else if keyMissing apiKey then (1, initTargetSt fs m)
  else (0, runTargetFrom gen 0 names (initTargetSt fs m))

/-- The counters of the batch state agree with its outcome trace. -/
def countsInv (st : BatchSt) : Prop :=
  st.successCount = st.trace.count RunOutcome.succeeded ∧
  st.skipCount = st.trace.count RunOutcome.skipped ∧
  st.errorCount = st.trace.count RunOutcome.failed ∧
  st.errors.length = st.errorCount

/-- Every manifest handed to persistent storage has its total recomputed
from the mapping and a refreshed update stamp. -/
def persistedInv (p : Option Manifest) : Prop :=
  ∀ pm, p = some pm →
    pm.total_avatars = (pm.avatars.map Prod.fst).length ∧ pm.updated_at.isSome = true

/-- A response part carrying an inlineData object with no data field. -/
def partNoData : ResponsePart :=
  { text := none, inlineData := some { data := none } }

/-- A response part carrying inline image data. -/
def partWithData : ResponsePart :=
  { text := none, inlineData := some { data := some "abc" } }

/-- A success response whose first inlineData-carrying part has no data
field while a later part does carry image data. -/
def respCE : ApiResponse :=
  { ok := true
    status := 200
    bodyText := ""
    candidates := some [{ content := some { parts := some [partNoData, partWithData] } }] }

/-- A response part carrying inline image data "xyz". -/
def partW : ResponsePart :=
  { text := none, inlineData := some { data := some "xyz" } }

/-- A success response whose only part carries inline image data. -/
def respOkW : ApiResponse :=
  { ok := true
    status := 200
    bodyText := ""
    candidates := some [{ content := some { parts := some [partW] } }] }

/-- A failed HTTP response. -/
def respErrW : ApiResponse :=
  { ok := false, status := 500, bodyText := "oops", candidates := none }

/-- A pre-existing target file makes the batch loop body skip the item
without consulting the generation oracle. -/
theorem batchStep_skip (gen : Nat → Except String String) (st : BatchSt) (i : Nat)
    (author : String) (h : fsExists st.fs (normalizeFilename author) = true) :
    batchStep gen st i author =
      { st with
        skipCount := st.skipCount + 1
        trace := st.trace ++ [RunOutcome.skipped] } := by
  simp [batchStep, h]

/-- A failing generation on a fresh item only records the error. -/
theorem batchStep_fail (gen : Nat → Except String String) (st : BatchSt) (i : Nat)
    (author e : String) (hE : fsExists st.fs (normalizeFilename author) = false)
    (hg : gen i = Except.error e) :
    batchStep gen st i author =
      { st with
        errorCount := st.errorCount + 1
        genCalls := st.genCalls + 1
        errors := st.errors ++ [(author, e)]
        trace := st.trace ++ [RunOutcome.failed] } := by
  simp [batchStep, hE, hg]

/-- A successful generation on a fresh item writes the file, records and
persists the manifest entry, and counts a success. -/
theorem batchStep_ok (gen : Nat → Except String String) (st : BatchSt) (i : Nat)
    (author d : String) (hE : fsExists st.fs (normalizeFilename author) = false)
    (hg : gen i = Except.ok d) :
    batchStep gen st i author =
      { st with
        fs := fsWrite st.fs (normalizeFilename author) d
        manifest := saveManifest i { st.manifest with
          avatars := objInsert st.manifest.avatars author
            { filename := normalizeFilename author, generated_at := i, regenerated := false } }
        persisted := some (saveManifest i { st.manifest with
          avatars := objInsert st.manifest.avatars author
            { filename := normalizeFilename author, generated_at := i, regenerated := false } })
        successCount := st.successCount + 1
        genCalls := st.genCalls + 1
        saveCount := st.saveCount + 1
        trace := st.trace ++ [RunOutcome.succeeded] } := by
  simp [batchStep, hE, hg]

/-- Each iteration of the batch loop records exactly one outcome. -/
theorem batchStep_trace_length (gen : Nat → Except String String) (st : BatchSt) (i : Nat)
    (author : String) : (batchStep gen st i author).trace.length = st.trace.length + 1 := by
  cases hE : fsExists st.fs (normalizeFilename author) with
  | true => rw [batchStep_skip gen st i author hE]; simp
  | false =>
    cases hg : gen i with
    | ok d => rw [batchStep_ok gen st i author d hE hg]; simp
    | error e => rw [batchStep_fail gen st i author e hE hg]; simp

theorem batchStep_countsInv (gen : Nat → Except String String) (st : BatchSt) (i : Nat)
    (author : String) (h : countsInv st) : countsInv (batchStep gen st i author) := by
  obtain ⟨h1, h2, h3, h4⟩ := h
  unfold countsInv
  cases hE : fsExists st.fs (normalizeFilename author) with
  | true =>
    rw [batchStep_skip gen st i author hE]
    simp_all [List.count_append, List.count_cons, List.count_nil]
  | false =>
    cases hg : gen i with
    | ok d =>
      rw [batchStep_ok gen st i author d hE hg]
      simp_all [List.count_append, List.count_cons, List.count_nil]
    | error e =>
      rw [batchStep_fail gen st i author e hE hg]
      simp_all [List.count_append, List.count_cons, List.count_nil]

theorem runBatchFrom_countsInv (gen : Nat → Except String String) :
    ∀ (authors : List String) (i : Nat) (st : BatchSt),
      countsInv st → countsInv (runBatchFrom gen i authors st) := by
  intro authors
  induction authors with
  | nil => intro i st h; exact h
  | cons a rest ih =>
    intro i st h
    exact ih (i + 1) _ (batchStep_countsInv gen st i a h)

theorem runBatchFrom_trace_length (gen : Nat → Except String String) :
    ∀ (authors : List String) (i : Nat) (st : BatchSt),
      (runBatchFrom gen i authors st).trace.length = st.trace.length + authors.length := by
  intro authors
  induction authors with
  | nil => intro i st; simp [runBatchFrom]
  | cons a rest ih =>
    intro i st
    have := batchStep_trace_length gen st i a
    simp only [runBatchFrom, ih (i + 1), this, List.length_cons]
    omega

/-- Every outcome of a run is a success, a skip, or a failure. -/
theorem count_outcomes (t : List RunOutcome) :
    t.count RunOutcome.succeeded + t.count RunOutcome.skipped + t.count RunOutcome.failed
      = t.length := by
  induction t with
  | nil => simp
  | cons o rest ih => cases o <;> simp [List.count_cons] <;> omega

/-- C1: partial-failure isolation of the batch driver: an item whose
generation raises an error has the error caught and recorded in the
in-memory error list and the loop continues, so every item of the batch
still receives an outcome; the summary's error count equals the number of
failing items, and the success count equals k minus errors minus skips. -/
theorem batch_failure_isolation :
    (∀ (gen : Nat → Except String String) (st : BatchSt) (i : Nat) (a e : String),
      fsExists st.fs (normalizeFilename a) = false → gen i = Except.error e →
      batchStep gen st i a =
        { st with
          errorCount := st.errorCount + 1
          genCalls := st.genCalls + 1
          errors := st.errors ++ [(a, e)]
          trace := st.trace ++ [RunOutcome.failed] }) ∧
    (∀ (gen : Nat → Except String String) (authors : List String) (fs : FS) (m : Manifest)
      (st : BatchSt), st = runBatchFrom gen 0 authors (initBatchSt fs m) →
      st.trace.length = authors.length ∧
      st.errorCount = st.trace.count RunOutcome.failed ∧
      st.skipCount = st.trace.count RunOutcome.skipped ∧
      st.successCount = st.trace.count RunOutcome.succeeded ∧
      st.errors.length = st.errorCount ∧
      st.successCount = authors.length - st.errorCount - st.skipCount) := by
  constructor
  · intro gen st i a e hE hg
    exact batchStep_fail gen st i a e hE hg
  · intro gen authors fs m st hst
    have hInv : countsInv st := by
      rw [hst]
      exact runBatchFrom_countsInv gen authors 0 _ (by simp [countsInv, initBatchSt])
    have hLen : st.trace.length = authors.length := by
      rw [hst, runBatchFrom_trace_length]
      simp [initBatchSt]
    obtain ⟨h1, h2, h3, h4⟩ := hInv
    have hpart := count_outcomes st.trace
    exact ⟨hLen, h3, h2, h1, h4, by omega⟩

/-- Witness for C1 at a concrete failing run of one item. -/
theorem batch_failure_isolation_witness :
    (fsExists (initBatchSt emptyFS emptyManifest).fs (normalizeFilename "Plato") = false ∧
     (fun _ : Nat => (Except.error "boom" : Except String String)) 0 = Except.error "boom" ∧
     batchStep (fun _ => Except.error "boom") (initBatchSt emptyFS emptyManifest) 0 "Plato" =
       { initBatchSt emptyFS emptyManifest with
         errorCount := (initBatchSt emptyFS emptyManifest).errorCount + 1
         genCalls := (initBatchSt emptyFS emptyManifest).genCalls + 1
         errors := (initBatchSt emptyFS emptyManifest).errors ++ [("Plato", "boom")]
         trace := (initBatchSt emptyFS emptyManifest).trace ++ [RunOutcome.failed] }) ∧
    (runBatchFrom (fun _ => Except.error "boom") 0 ["Plato"]
        (initBatchSt emptyFS emptyManifest)).trace.length = ["Plato"].length ∧
    (runBatchFrom (fun _ => Except.error "boom") 0 ["Plato"]
        (initBatchSt emptyFS emptyManifest)).errorCount =
      (runBatchFrom (fun _ => Except.error "boom") 0 ["Plato"]
        (initBatchSt emptyFS emptyManifest)).trace.count RunOutcome.failed ∧
    (runBatchFrom (fun _ => Except.error "boom") 0 ["Plato"]
        (initBatchSt emptyFS emptyManifest)).skipCount =
      (runBatchFrom (fun _ => Except.error "boom") 0 ["Plato"]
        (initBatchSt emptyFS emptyManifest)).trace.count RunOutcome.skipped ∧
    (runBatchFrom (fun _ => Except.error "boom") 0 ["Plato"]
        (initBatchSt emptyFS emptyManifest)).successCount =
      (runBatchFrom (fun _ => Except.error "boom") 0 ["Plato"]
        (initBatchSt emptyFS emptyManifest)).trace.count RunOutcome.succeeded ∧
    (runBatchFrom (fun _ => Except.error "boom") 0 ["Plato"]
        (initBatchSt emptyFS emptyManifest)).errors.length =
      (runBatchFrom (fun _ => Except.error "boom") 0 ["Plato"]
        (initBatchSt emptyFS emptyManifest)).errorCount ∧
    (runBatchFrom (fun _ => Except.error "boom") 0 ["Plato"]
        (initBatchSt emptyFS emptyManifest)).successCount =
      ["Plato"].length -
        (runBatchFrom (fun _ => Except.error "boom") 0 ["Plato"]
          (initBatchSt emptyFS emptyManifest)).errorCount -
        (runBatchFrom (fun _ => Except.error "boom") 0 ["Plato"]
          (initBatchSt emptyFS emptyManifest)).skipCount :=
  ⟨⟨rfl, rfl, batch_failure_isolation.1 _ _ 0 "Plato" "boom" rfl rfl⟩,
   batch_failure_isolation.2 _ ["Plato"] emptyFS emptyManifest _ rfl⟩

theorem fsExists_fsWrite (fs : FS) (n c f : String) :
    fsExists (fsWrite fs n c) f = if f = n then true else fsExists fs f := by
  simp only [fsExists, fsWrite]
  split <;> simp

/-- The batch loop never removes files. -/
theorem batchStep_fs_mono (gen : Nat → Except String String) (st : BatchSt) (i : Nat)
    (a f : String) (h : fsExists st.fs f = true) :
    fsExists (batchStep gen st i a).fs f = true := by
  cases hE : fsExists st.fs (normalizeFilename a) with
  | true => rw [batchStep_skip gen st i a hE]; exact h
  | false =>
    cases hg : gen i with
    | ok d =>
      rw [batchStep_ok gen st i a d hE hg]
      show fsExists (fsWrite st.fs (normalizeFilename a) d) f = true
      rw [fsExists_fsWrite]
      split
      · rfl
      · exact h
    | error e => rw [batchStep_fail gen st i a e hE hg]; exact h

theorem runBatchFrom_fs_mono (gen : Nat → Except String String) :
    ∀ (authors : List String) (i : Nat) (st : BatchSt) (f : String),
      fsExists st.fs f = true → fsExists (runBatchFrom gen i authors st).fs f = true := by
  intro authors
  induction authors with
  | nil => intro i st f h; exact h
  | cons b rest ih =>
    intro i st f h
    exact ih (i + 1) _ f (batchStep_fs_mono gen st i b f h)

theorem batchStep_errorCount_mono (gen : Nat → Except String String) (st : BatchSt) (i : Nat)
    (a : String) : st.errorCount ≤ (batchStep gen st i a).errorCount := by
  cases hE : fsExists st.fs (normalizeFilename a) with
  | true => rw [batchStep_skip gen st i a hE]
  | false =>
    cases hg : gen i with
    | ok d => rw [batchStep_ok gen st i a d hE hg]
    | error e => rw [batchStep_fail gen st i a e hE hg]; exact Nat.le_succ _

theorem runBatchFrom_errorCount_mono (gen : Nat → Except String String) :
    ∀ (authors : List String) (i : Nat) (st : BatchSt),
      st.errorCount ≤ (runBatchFrom gen i authors st).errorCount := by
  intro authors
  induction authors with
  | nil => intro i st; exact Nat.le_refl _
  | cons b rest ih =>
    intro i st
    exact Nat.le_trans (batchStep_errorCount_mono gen st i b) (ih (i + 1) _)

/-- An iteration that does not raise the error count leaves the item's
target file present afterwards. -/
theorem batchStep_no_error_exists (gen : Nat → Except String String) (st : BatchSt) (i : Nat)
    (a : String) (h : (batchStep gen st i a).errorCount = st.errorCount) :
    fsExists (batchStep gen st i a).fs (normalizeFilename a) = true := by
  cases hE : fsExists st.fs (normalizeFilename a) with
  | true => rw [batchStep_skip gen st i a hE]; exact hE
  | false =>
    cases hg : gen i with
    | ok d =>
      rw [batchStep_ok gen st i a d hE hg]
      show fsExists (fsWrite st.fs (normalizeFilename a) d) (normalizeFilename a) = true
      rw [fsExists_fsWrite]
      simp
    | error e =>
      rw [batchStep_fail gen st i a e hE hg] at h
      simp at h

/-- An error-free batch run leaves every processed item's file present. -/
theorem runBatchFrom_all_exist (gen : Nat → Except String String) :
    ∀ (authors : List String) (i : Nat) (st : BatchSt),
      (runBatchFrom gen i authors st).errorCount = st.errorCount →
      ∀ a ∈ authors, fsExists (runBatchFrom gen i authors st).fs (normalizeFilename a) = true := by
  intro authors
  induction authors with
  | nil => intro i st _ a ha; simp at ha
  | cons b rest ih =>
    intro i st h a ha
    have hrw : runBatchFrom gen i (b :: rest) st
        = runBatchFrom gen (i + 1) rest (batchStep gen st i b) := rfl
    rw [hrw] at h ⊢
    have h1 : st.errorCount ≤ (batchStep gen st i b).errorCount :=
      batchStep_errorCount_mono gen st i b
    have h2 : (batchStep gen st i b).errorCount
        ≤ (runBatchFrom gen (i + 1) rest (batchStep gen st i b)).errorCount :=
      runBatchFrom_errorCount_mono gen rest (i + 1) _
    have heq : (batchStep gen st i b).errorCount = st.errorCount := by omega
    rcases List.mem_cons.mp ha with rfl | hmem
    · exact runBatchFrom_fs_mono gen rest (i + 1) _ _
        (batchStep_no_error_exists gen st i a heq)
    · exact ih (i + 1) (batchStep gen st i b) (by omega) a hmem

/-- Over a work list whose files all already exist, the batch loop only
skips: it performs no generation call and changes nothing but the skip
count and the trace. -/
theorem runBatchFrom_all_skip (gen : Nat → Except String String) :
    ∀ (authors : List String) (i : Nat) (st : BatchSt),
      (∀ a ∈ authors, fsExists st.fs (normalizeFilename a) = true) →
      runBatchFrom gen i authors st =
        { st with
          skipCount := st.skipCount + authors.length
          trace := st.trace ++ List.replicate authors.length RunOutcome.skipped } := by
  intro authors
  induction authors with
  | nil => intro i st _; simp [runBatchFrom]
  | cons b rest ih =>
    intro i st h
    have hb : fsExists st.fs (normalizeFilename b) = true := h b (by simp)
    show runBatchFrom gen (i + 1) rest (batchStep gen st i b) = _
    rw [batchStep_skip gen st i b hb]
    rw [ih (i + 1)
      { st with
        skipCount := st.skipCount + 1
        trace := st.trace ++ [RunOutcome.skipped] }
      (fun a ha => h a (by simp [ha]))]
    simp [List.replicate_succ, List.append_assoc]
    omega

/-- C2 as stated fails on the code: a batch run of the single fresh
author "plato" whose generation call fails leaves no content file, so a
second run over the same range with unchanged content makes one
generation call and the item resolves to FAILED, not SKIPPED. -/
theorem batch_rerun_counterexample :
    (runBatchFrom (fun _ => Except.error "boom") 0 ["plato"]
        (initBatchSt
          (runBatchFrom (fun _ => Except.error "boom") 0 ["plato"]
            (initBatchSt emptyFS emptyManifest)).fs
          emptyManifest)).genCalls = 1 ∧
    (runBatchFrom (fun _ => Except.error "boom") 0 ["plato"]
        (initBatchSt
          (runBatchFrom (fun _ => Except.error "boom") 0 ["plato"]
            (initBatchSt emptyFS emptyManifest)).fs
          emptyManifest)).trace = [RunOutcome.failed] := by
  decide

/-- C2 amended: an item whose target file exists at loop time is skipped
without any generator call; and whenever the first batch run reports zero
errors, a second run over the same authors against the resulting content
directory makes zero generation calls and resolves every item to
SKIPPED, leaving the filesystem unchanged. -/
theorem batch_skip_idempotence :
    (∀ (gen : Nat → Except String String) (st : BatchSt) (i : Nat) (a : String),
      fsExists st.fs (normalizeFilename a) = true →
      batchStep gen st i a =
        { st with
          skipCount := st.skipCount + 1
          trace := st.trace ++ [RunOutcome.skipped] }) ∧
    (∀ (gen gen2 : Nat → Except String String) (authors : List String) (fs : FS)
      (m m2 : Manifest) (st1 st2 : BatchSt),
      st1 = runBatchFrom gen 0 authors (initBatchSt fs m) →
      st1.errorCount = 0 →
      st2 = runBatchFrom gen2 0 authors (initBatchSt st1.fs m2) →
      st2.genCalls = 0 ∧ st2.skipCount = authors.length ∧
      st2.trace = List.replicate authors.length RunOutcome.skipped ∧ st2.fs = st1.fs) := by
  constructor
  · intro gen st i a h
    exact batchStep_skip gen st i a h
  · intro gen gen2 authors fs m m2 st1 st2 h1 hE h2
    have hall : ∀ a ∈ authors, fsExists st1.fs (normalizeFilename a) = true := by
      intro a ha
      rw [h1]
      refine runBatchFrom_all_exist gen authors 0 (initBatchSt fs m) ?_ a ha
      rw [← h1, hE]
      rfl
    rw [runBatchFrom_all_skip gen2 authors 0 (initBatchSt st1.fs m2) hall] at h2
    rw [h2]
    simp [initBatchSt]

/-- Witness for C2 amended: a successful one-item run followed by a
rerun that only skips. -/
theorem batch_skip_idempotence_witness :
    (runBatchFrom (fun _ => Except.ok "img") 0 ["plato"]
        (initBatchSt emptyFS emptyManifest)).errorCount = 0 ∧
    (runBatchFrom (fun _ => Except.error "down") 0 ["plato"]
        (initBatchSt
          (runBatchFrom (fun _ => Except.ok "img") 0 ["plato"]
            (initBatchSt emptyFS emptyManifest)).fs
          emptyManifest)).genCalls = 0 ∧
    (runBatchFrom (fun _ => Except.error "down") 0 ["plato"]
        (initBatchSt
          (runBatchFrom (fun _ => Except.ok "img") 0 ["plato"]
            (initBatchSt emptyFS emptyManifest)).fs
          emptyManifest)).skipCount = (["plato"] : List String).length ∧
    (runBatchFrom (fun _ => Except.error "down") 0 ["plato"]
        (initBatchSt
          (runBatchFrom (fun _ => Except.ok "img") 0 ["plato"]
            (initBatchSt emptyFS emptyManifest)).fs
          emptyManifest)).trace
      = List.replicate (["plato"] : List String).length RunOutcome.skipped ∧
    (runBatchFrom (fun _ => Except.error "down") 0 ["plato"]
        (initBatchSt
          (runBatchFrom (fun _ => Except.ok "img") 0 ["plato"]
            (initBatchSt emptyFS emptyManifest)).fs
          emptyManifest)).fs
      = (runBatchFrom (fun _ => Except.ok "img") 0 ["plato"]
          (initBatchSt emptyFS emptyManifest)).fs :=
  ⟨by decide,
   batch_skip_idempotence.2 (fun _ => Except.ok "img") (fun _ => Except.error "down")
     ["plato"] emptyFS emptyManifest emptyManifest _ _ rfl (by decide) rfl⟩

theorem normChar_ne_dot (c : Char) : normChar c ≠ '.' := by
  unfold normChar
  split
  · rename_i h
    intro hc
    subst hc
    exact absurd h (by decide)
  · decide

theorem mem_normList_ne_dot (s : String) : ∀ c ∈ normList s, c ≠ '.' := by
  intro c hc
  simp only [normList, List.mem_map] at hc
  obtain ⟨b, _, rfl⟩ := hc
  exact normChar_ne_dot b

theorem isPrefixOf_self (l : List Char) : List.isPrefixOf l l = true := by
  induction l with
  | nil => rfl
  | cons c rest ih => simp [List.isPrefixOf, ih]

/-- When the pattern starts with a dot and the preceding segment is
dot-free, the first occurrence of the pattern is exactly at the end of
the segment, so the replacement splices there. -/
theorem replaceFirst_append_of_ne (tl r : List Char) :
    ∀ s : List Char, (∀ c ∈ s, c ≠ '.') →
      replaceFirst (s ++ '.' :: tl) ('.' :: tl) r = s ++ r := by
  intro s
  induction s with
  | nil =>
    intro _
    show replaceFirst ('.' :: tl) ('.' :: tl) r = [] ++ r
    unfold replaceFirst
    rw [if_pos (isPrefixOf_self ('.' :: tl))]
    simp [List.drop_length]
  | cons c rest ih =>
    intro h
    have hc : c ≠ '.' := h c (by simp)
    show replaceFirst (c :: (rest ++ '.' :: tl)) ('.' :: tl) r = c :: (rest ++ r)
    unfold replaceFirst
    rw [if_neg]
    · rw [ih (fun d hd => h d (by simp [hd]))]
    · simp [List.isPrefixOf]
      intro hcc
      exact absurd hcc.symm hc

/-- The backup path of a normalized filename replaces the trailing ".png"
suffix (the name body contains no dot, so the suffix is the first
occurrence of the pattern). -/
theorem backupName_normalizeFilename (a : String) :
    backupName (normalizeFilename a) = ⟨normList a ++ ".backup.png".data⟩ := by
  unfold backupName normalizeFilename
  congr 1
  have hpng : ".png".data = '.' :: ['p', 'n', 'g'] := rfl
  show replaceFirst (normList a ++ ".png".data) ".png".data ".backup.png".data
      = normList a ++ ".backup.png".data
  rw [hpng]
  exact replaceFirst_append_of_ne ['p', 'n', 'g'] ".backup.png".data (normList a)
    (mem_normList_ne_dot a)

/-- The backup path is distinct from the target path. -/
theorem backupName_ne (a : String) :
    backupName (normalizeFilename a) ≠ normalizeFilename a := by
  rw [backupName_normalizeFilename]
  unfold normalizeFilename
  intro h
  have hdata : normList a ++ ".backup.png".data = normList a ++ ".png".data :=
    congrArg String.data h
  exact absurd (List.append_cancel_left hdata) (by decide)

/-- saveAvatarT on an existing target copies the old content to the
backup path before writing the new payload, and reports the backup. -/
theorem saveAvatarT_exists (fs : FS) (author data old : String)
    (h : fs (normalizeFilename author) = some old) :
    saveAvatarT fs author data =
      (fsWrite (fsWrite fs (backupName (normalizeFilename author)) old)
        (normalizeFilename author) data, normalizeFilename author, true) := by
  simp [saveAvatarT, h]

/-- The behaviour of N successive regeneration saves on one name: the
target holds the last payload, the backup holds the content from just
before the last save, each save performed exactly one backup, and no
other path changed. -/
theorem regenIter_run (author : String) :
    ∀ (ds : List String) (fs : FS) (v0 : String),
      fs (normalizeFilename author) = some v0 →
      (regenIter fs author ds).1 (normalizeFilename author) = some (ds.getLastD v0) ∧
      (ds ≠ [] → (regenIter fs author ds).1 (backupName (normalizeFilename author))
          = some (ds.dropLast.getLastD v0)) ∧
      (regenIter fs author ds).2 = ds.length ∧
      (∀ g, g ≠ normalizeFilename author → g ≠ backupName (normalizeFilename author) →
        (regenIter fs author ds).1 g = fs g) := by
  intro ds
  induction ds with
  | nil =>
    intro fs v0 h
    exact ⟨h, by simp, rfl, fun g _ _ => rfl⟩
  | cons d rest ih =>
    intro fs v0 h
    have hne := backupName_ne author
    simp only [regenIter, saveAvatarT_exists fs author d v0 h]
    have hfs1 : (fsWrite (fsWrite fs (backupName (normalizeFilename author)) v0)
        (normalizeFilename author) d) (normalizeFilename author) = some d := by
      simp [fsWrite]
    obtain ⟨ih1, ih2, ih3, ih4⟩ := ih _ d hfs1
    refine ⟨?_, ?_, ?_, ?_⟩
    · rw [List.getLastD_cons]
      exact ih1
    · intro _
      cases rest with
      | nil =>
        show (fsWrite (fsWrite fs (backupName (normalizeFilename author)) v0)
            (normalizeFilename author) d) (backupName (normalizeFilename author))
          = some ([d].dropLast.getLastD v0)
        simp [fsWrite, hne]
      | cons e es =>
        have hdl : (d :: e :: es).dropLast = d :: (e :: es).dropLast := rfl
        rw [hdl, List.getLastD_cons]
        exact ih2 (by simp)
    · simp only [if_true, ih3, List.length_cons]
      omega
    · intro g hg1 hg2
      rw [ih4 g hg1 hg2]
      simp [fsWrite, hg1, hg2]

/-- C3: targeted-regeneration backup policy: a save over an existing file
first copies it to the distinct sibling backup path and then overwrites
the target; N successive regenerations of the same name perform exactly
one backup copy each, and afterwards the backup holds only the version
that existed immediately before the Nth save, with no other path
touched. -/
theorem targeted_backup_policy :
    (∀ (fs : FS) (author data old : String),
      fs (normalizeFilename author) = some old →
      (saveAvatarT fs author data).1 (normalizeFilename author) = some data ∧
      (saveAvatarT fs author data).1 (backupName (normalizeFilename author)) = some old ∧
      (saveAvatarT fs author data).2.2 = true ∧
      backupName (normalizeFilename author) ≠ normalizeFilename author) ∧
    (∀ (fs : FS) (author v0 : String) (ds : List String) (dN : String),
      fs (normalizeFilename author) = some v0 →
      (regenIter fs author (ds ++ [dN])).1 (normalizeFilename author) = some dN ∧
      (regenIter fs author (ds ++ [dN])).1 (backupName (normalizeFilename author))
        = some (ds.getLastD v0) ∧
      (regenIter fs author (ds ++ [dN])).2 = ds.length + 1 ∧
      (∀ g, g ≠ normalizeFilename author → g ≠ backupName (normalizeFilename author) →
        (regenIter fs author (ds ++ [dN])).1 g = fs g)) := by
  constructor
  · intro fs author data old h
    have hne := backupName_ne author
    rw [saveAvatarT_exists fs author data old h]
    refine ⟨by simp [fsWrite], ?_, rfl, hne⟩
    show (fsWrite (fsWrite fs (backupName (normalizeFilename author)) old)
        (normalizeFilename author) data) (backupName (normalizeFilename author)) = some old
    simp [fsWrite, hne]
  · intro fs author v0 ds dN h
    obtain ⟨h1, h2, h3, h4⟩ := regenIter_run author (ds ++ [dN]) fs v0 h
    refine ⟨?_, ?_, ?_, h4⟩
    · rw [List.getLastD_concat] at h1
      exact h1
    · rw [List.dropLast_concat] at h2
      exact h2 (by simp)
    · rw [h3]
      simp

/-- Witness for C3: two successive regenerations of "plato" starting
from content "v0". -/
theorem targeted_backup_policy_witness :
    (fsWrite emptyFS (normalizeFilename "plato") "v0") (normalizeFilename "plato")
      = some "v0" ∧
    (saveAvatarT (fsWrite emptyFS (normalizeFilename "plato") "v0") "plato" "v1").1
      (normalizeFilename "plato") = some "v1" ∧
    (saveAvatarT (fsWrite emptyFS (normalizeFilename "plato") "v0") "plato" "v1").1
      (backupName (normalizeFilename "plato")) = some "v0" ∧
    (regenIter (fsWrite emptyFS (normalizeFilename "plato") "v0") "plato"
      (["v1"] ++ ["v2"])).1 (normalizeFilename "plato") = some "v2" ∧
    (regenIter (fsWrite emptyFS (normalizeFilename "plato") "v0") "plato"
      (["v1"] ++ ["v2"])).1 (backupName (normalizeFilename "plato"))
        = some ((["v1"] : List String).getLastD "v0") ∧
    (regenIter (fsWrite emptyFS (normalizeFilename "plato") "v0") "plato"
      (["v1"] ++ ["v2"])).2 = (["v1"] : List String).length + 1 :=
  ⟨rfl,
   (targeted_backup_policy.1 (fsWrite emptyFS (normalizeFilename "plato") "v0")
     "plato" "v1" "v0" rfl).1,
   (targeted_backup_policy.1 (fsWrite emptyFS (normalizeFilename "plato") "v0")
     "plato" "v1" "v0" rfl).2.1,
   (targeted_backup_policy.2 (fsWrite emptyFS (normalizeFilename "plato") "v0")
     "plato" "v0" ["v1"] "v2" rfl).1,
   (targeted_backup_policy.2 (fsWrite emptyFS (normalizeFilename "plato") "v0")
     "plato" "v0" ["v1"] "v2" rfl).2.1,
   (targeted_backup_policy.2 (fsWrite emptyFS (normalizeFilename "plato") "v0")
     "plato" "v0" ["v1"] "v2" rfl).2.2.1⟩

/-- C4: normalizeFilename is deterministic and pure: equal inputs give
equal results; the result is the lowercased input with every character
outside [a-z0-9] replaced by the fixed separator, suffixed with ".png";
and "Marcus Aurelius" maps to "marcus-aurelius.png". -/
theorem normalizeFilename_deterministic_pure :
    (∀ s t : String, s = t → normalizeFilename s = normalizeFilename t) ∧
    (∀ s : String, (normalizeFilename s).data =
      (s.data.map (fun c =>
        if ('a' ≤ Char.toLower c ∧ Char.toLower c ≤ 'z') ∨
            ('0' ≤ Char.toLower c ∧ Char.toLower c ≤ '9') then Char.toLower c else '-'))
        ++ ".png".data) ∧
    normalizeFilename "Marcus Aurelius" = "marcus-aurelius.png" := by
  refine ⟨fun s t h => by rw [h], fun s => ?_, by decide⟩
  simp only [normalizeFilename, normList, List.map_map]
  rfl

/-- Witness for C4 at a concrete input. -/
theorem normalizeFilename_deterministic_pure_witness :
    normalizeFilename "Plato" = normalizeFilename "Plato" :=
  normalizeFilename_deterministic_pure.1 "Plato" "Plato" rfl

/-- C5: sub-range selection of the catalog: with a limit given the batch
driver processes exactly the items with indices startIdx to endIndex - 1
where endIndex = min(startIdx + limit, total); with no limit it processes
the full remainder from startIdx to total - 1. -/
theorem catalog_range_selection (authors : List String) (s l i : Nat) :
    ((0 < l → endIndex s l authors.length = min (s + l) authors.length) ∧
     (l = 0 → endIndex s l authors.length = authors.length)) ∧
    (authorsToProcess authors s l)[i]? =
      (if s + i < endIndex s l authors.length then authors[s + i]? else none) := by
  constructor
  · constructor
    · intro hl
      simp [endIndex, hl]
    · intro hl
      simp [endIndex, hl]
  · simp only [authorsToProcess, List.getElem?_drop, List.getElem?_take]

/-- Witness for C5 at a concrete input. -/
theorem catalog_range_selection_witness :
    endIndex 0 1 (["Plato", "Kant"] : List String).length
      = min (0 + 1) (["Plato", "Kant"] : List String).length ∧
    (authorsToProcess ["Plato", "Kant"] 0 1)[0]? =
      (if 0 + 0 < endIndex 0 1 (["Plato", "Kant"] : List String).length
        then (["Plato", "Kant"] : List String)[0 + 0]? else none) :=
  ⟨(catalog_range_selection ["Plato", "Kant"] 0 1 0).1.1 (by decide),
   (catalog_range_selection ["Plato", "Kant"] 0 1 0).2⟩

/-- A failing generation in the regeneration loop only records the
error. -/
theorem targetStep_fail (gen : Nat → Except String String) (st : TargetSt) (i : Nat)
    (author e : String) (hg : gen i = Except.error e) :
    targetStep gen st i author =
      { st with
        errorCount := st.errorCount + 1
        genCalls := st.genCalls + 1
        errors := st.errors ++ [(author, e)]
        trace := st.trace ++ [RunOutcome.failed] } := by
  simp [targetStep, hg]

/-- A successful generation in the regeneration loop saves the payload
and records and persists the manifest entry. -/
theorem targetStep_ok (gen : Nat → Except String String) (st : TargetSt) (i : Nat)
    (author d : String) (hg : gen i = Except.ok d) :
    targetStep gen st i author =
      { st with
        fs := (saveAvatarT st.fs author d).1
        manifest := saveManifest i { st.manifest with
          avatars := objInsert st.manifest.avatars author
            { filename := (saveAvatarT st.fs author d).2.1, generated_at := i,
              regenerated := true } }
        persisted := some (saveManifest i { st.manifest with
          avatars := objInsert st.manifest.avatars author
            { filename := (saveAvatarT st.fs author d).2.1, generated_at := i,
              regenerated := true } })
        successCount := st.successCount + 1
        genCalls := st.genCalls + 1
        saveCount := st.saveCount + 1
        backupCount := st.backupCount + (if (saveAvatarT st.fs author d).2.2 then 1 else 0)
        trace := st.trace ++ [RunOutcome.succeeded] } := by
  simp [targetStep, hg]

/-- The regeneration loop always consults the generation oracle, whether
or not the target file exists. -/
theorem targetStep_genCalls (gen : Nat → Except String String) (st : TargetSt) (i : Nat)
    (author : String) : (targetStep gen st i author).genCalls = st.genCalls + 1 := by
  cases hg : gen i with
  | ok d => rw [targetStep_ok gen st i author d hg]
  | error e => rw [targetStep_fail gen st i author e hg]

theorem batchStep_persistedInv (gen : Nat → Except String String) (st : BatchSt) (i : Nat)
    (a : String) (h : persistedInv st.persisted) :
    persistedInv (batchStep gen st i a).persisted := by
  cases hE : fsExists st.fs (normalizeFilename a) with
  | true => rw [batchStep_skip gen st i a hE]; exact h
  | false =>
    cases hg : gen i with
    | ok d =>
      rw [batchStep_ok gen st i a d hE hg]
      intro pm hpm
      have hpm2 : saveManifest i { st.manifest with
          avatars := objInsert st.manifest.avatars a
            { filename := normalizeFilename a, generated_at := i, regenerated := false } }
          = pm := by
        exact Option.some.inj hpm
      rw [← hpm2]
      exact ⟨rfl, rfl⟩
    | error e => rw [batchStep_fail gen st i a e hE hg]; exact h

theorem runBatchFrom_persistedInv (gen : Nat → Except String String) :
    ∀ (authors : List String) (i : Nat) (st : BatchSt),
      persistedInv st.persisted → persistedInv (runBatchFrom gen i authors st).persisted := by
  intro authors
  induction authors with
  | nil => intro i st h; exact h
  | cons a rest ih =>
    intro i st h
    exact ih (i + 1) _ (batchStep_persistedInv gen st i a h)

/-- C6: manifest save invariant: saveManifest recomputes total_avatars
from the current mapping size and refreshes updated_at while leaving the
mapping itself untouched; the batch driver persists the full manifest
right after every successful item, so every persisted manifest of a run
has total_avatars equal to the number of keys of its avatars mapping and
a stamped updated_at; the targeted driver persists the full manifest
after every success as well. -/
theorem manifest_save_invariant :
    (∀ (now : Nat) (m : Manifest),
      (saveManifest now m).total_avatars = ((saveManifest now m).avatars.map Prod.fst).length ∧
      (saveManifest now m).updated_at = some now ∧
      (saveManifest now m).avatars = m.avatars ∧
      (saveManifest now m).generated_at = m.generated_at) ∧
    (∀ (gen : Nat → Except String String) (st : BatchSt) (i : Nat) (a d : String),
      fsExists st.fs (normalizeFilename a) = false → gen i = Except.ok d →
      (batchStep gen st i a).persisted = some (batchStep gen st i a).manifest ∧
      (batchStep gen st i a).saveCount = st.saveCount + 1) ∧
    (∀ (gen : Nat → Except String String) (st : TargetSt) (i : Nat) (a d : String),
      gen i = Except.ok d →
      (targetStep gen st i a).persisted = some (targetStep gen st i a).manifest ∧
      (targetStep gen st i a).saveCount = st.saveCount + 1) ∧
    (∀ (gen : Nat → Except String String) (authors : List String) (fs : FS) (m : Manifest)
      (pm : Manifest),
      (runBatchFrom gen 0 authors (initBatchSt fs m)).persisted = some pm →
      pm.total_avatars = (pm.avatars.map Prod.fst).length ∧ pm.updated_at.isSome = true) := by
  refine ⟨fun now m => ⟨rfl, rfl, rfl, rfl⟩, ?_, ?_, ?_⟩
  · intro gen st i a d hE hg
    rw [batchStep_ok gen st i a d hE hg]
    exact ⟨rfl, rfl⟩
  · intro gen st i a d hg
    rw [targetStep_ok gen st i a d hg]
    exact ⟨rfl, rfl⟩
  · intro gen authors fs m pm hpm
    have hinv : persistedInv (runBatchFrom gen 0 authors (initBatchSt fs m)).persisted :=
      runBatchFrom_persistedInv gen authors 0 _ (fun q hq => by cases hq)
    exact hinv pm hpm

/-- Witness for C6 at a concrete successful one-item batch run. -/
theorem manifest_save_invariant_witness :
    ((saveManifest 5 emptyManifest).total_avatars
        = ((saveManifest 5 emptyManifest).avatars.map Prod.fst).length ∧
      (saveManifest 5 emptyManifest).updated_at = some 5) ∧
    (fsExists emptyFS (normalizeFilename "plato") = false ∧
      (batchStep (fun _ => Except.ok "img") (initBatchSt emptyFS emptyManifest) 0
          "plato").persisted
        = some (batchStep (fun _ => Except.ok "img") (initBatchSt emptyFS emptyManifest) 0
            "plato").manifest) ∧
    ((targetStep (fun _ => Except.ok "img") (initTargetSt emptyFS emptyManifest) 0
        "plato").persisted
      = some (targetStep (fun _ => Except.ok "img") (initTargetSt emptyFS emptyManifest) 0
          "plato").manifest) ∧
    ((saveManifest 0 { emptyManifest with
        avatars := objInsert emptyManifest.avatars "plato"
          { filename := normalizeFilename "plato", generated_at := 0,
            regenerated := false } }).total_avatars
      = ((saveManifest 0 { emptyManifest with
          avatars := objInsert emptyManifest.avatars "plato"
            { filename := normalizeFilename "plato", generated_at := 0,
              regenerated := false } }).avatars.map Prod.fst).length) :=
  ⟨⟨(manifest_save_invariant.1 5 emptyManifest).1, (manifest_save_invariant.1 5 emptyManifest).2.1⟩,
   ⟨rfl, (manifest_save_invariant.2.1 (fun _ => Except.ok "img")
     (initBatchSt emptyFS emptyManifest) 0 "plato" "img" rfl rfl).1⟩,
   (manifest_save_invariant.2.2.1 (fun _ => Except.ok "img")
     (initTargetSt emptyFS emptyManifest) 0 "plato" "img" rfl).1,
   (manifest_save_invariant.2.2.2 (fun _ => Except.ok "img") ["plato"]
     emptyFS emptyManifest
     (saveManifest 0 { emptyManifest with
        avatars := objInsert emptyManifest.avatars "plato"
          { filename := normalizeFilename "plato", generated_at := 0,
            regenerated := false } }) rfl).1⟩

/-- C7 as stated fails on the code: respCE is a success response whose
parts do contain inline image data (the second part carries "abc"), yet
the client returns an error instead of that payload, because the first
part carrying an inlineData object has no data field and the client only
inspects the first such part. -/
theorem generateAvatar_claim_counterexample :
    respCE.ok = true ∧
    responseParts respCE = some [partNoData, partWithData] ∧
    partWithData.inlineData.bind InlineData.data = some "abc" ∧
    generateAvatar respCE = Except.error (genFailed "No image data in response") :=
  ⟨rfl, rfl, rfl, rfl⟩

/-- C7 amended: the client returns an error, wrapped with the
"Generation failed: " prefix, exactly when the HTTP status is non-ok
(message carrying status and body), when the candidates/content/parts
chain is missing, or when the first part carrying an inlineData object
has a missing or empty data field (in particular when no part carries
inline data); on a success response whose first inlineData-carrying part
has nonempty data, it returns that base64 payload. -/
theorem generateAvatar_contract (r : ApiResponse) :
    (r.ok = false →
      generateAvatar r
        = Except.error (genFailed ("API error: " ++ toString r.status ++ " - " ++ r.bodyText))) ∧
    (r.ok = true → responseParts r = none →
      generateAvatar r = Except.error (genFailed "No parts in response")) ∧
    (∀ parts, r.ok = true → responseParts r = some parts →
      parts.find? (fun p => p.inlineData.isSome) = none →
      generateAvatar r = Except.error (genFailed "No image data in response")) ∧
    (∀ parts p, r.ok = true → responseParts r = some parts →
      parts.find? (fun p => p.inlineData.isSome) = some p →
      (p.inlineData.bind InlineData.data = none →
        generateAvatar r = Except.error (genFailed "No image data in response")) ∧
      (p.inlineData.bind InlineData.data = some "" →
        generateAvatar r = Except.error (genFailed "No image data in response")) ∧
      (∀ d, p.inlineData.bind InlineData.data = some d → d ≠ "" →
        generateAvatar r = Except.ok d)) := by
  refine ⟨?_, ?_, ?_, ?_⟩
  · intro h
    simp [generateAvatar, h]
  · intro h1 h2
    simp [generateAvatar, h1, h2]
  · intro parts h1 h2 h3
    simp [generateAvatar, h1, h2, h3]
  · intro parts p h1 h2 h3
    refine ⟨?_, ?_, ?_⟩
    · intro h4
      simp [generateAvatar, h1, h2, h3, h4]
    · intro h4
      simp [generateAvatar, h1, h2, h3, h4]
    · intro d h4 h5
      simp [generateAvatar, h1, h2, h3, h4, h5]

/-- Witness for C7 amended: a success response carrying "xyz" in its
first inline part yields that payload; a 500 response yields the wrapped
API error. -/
theorem generateAvatar_contract_witness :
    generateAvatar respOkW = Except.ok "xyz" ∧
    generateAvatar respErrW
      = Except.error (genFailed ("API error: " ++ toString (500 : Nat) ++ " - " ++ "oops")) :=
  ⟨((generateAvatar_contract respOkW).2.2.2 [partW] partW rfl rfl rfl).2.2 "xyz" rfl
      (by decide),
   (generateAvatar_contract respErrW).1 rfl⟩

/-- C8 as stated fails on the code: in batch mode with a configured
credential and an empty resolved range, the process completes its (empty)
loop and exits with code 0, not a non-zero code, while making zero
generation calls. -/
theorem empty_range_exit_counterexample :
    authorsToProcess [] 0 0 = [] ∧
    (mainBatch (some "key") [] 0 0 emptyFS emptyManifest (fun _ => Except.error "e")).1 = 0 ∧
    (mainBatch (some "key") [] 0 0 emptyFS emptyManifest
      (fun _ => Except.error "e")).2.genCalls = 0 := by
  decide

/-- C8 amended: only targeted mode fails fast on an empty work set: with
zero names supplied it exits with code 1 before any generation call;
batch mode with an empty resolved range instead completes its loop
normally, exiting 0 with zero generation calls. -/
theorem fail_fast_empty_work (apiKey : Option String) (authors : List String)
    (s l : Nat) (fs fs2 : FS) (m m2 : Manifest) (gen gen2 : Nat → Except String String)
    (hk : keyMissing apiKey = false) :
    (mainTargeted apiKey [] fs m gen).1 = 1 ∧
    (mainTargeted apiKey [] fs m gen).2.genCalls = 0 ∧
    (authorsToProcess authors s l = [] →
      (mainBatch apiKey authors s l fs2 m2 gen2).1 = 0 ∧
      (mainBatch apiKey authors s l fs2 m2 gen2).2.genCalls = 0) := by
  refine ⟨rfl, rfl, ?_⟩
  intro h
  simp [mainBatch, hk, h, runBatchFrom, initBatchSt]

/-- Witness for C8 amended at concrete inputs. -/
theorem fail_fast_empty_work_witness :
    keyMissing (some "key") = false ∧
    authorsToProcess ["plato"] 5 0 = [] ∧
    (mainTargeted (some "key") [] emptyFS emptyManifest (fun _ => Except.error "e")).1 = 1 ∧
    (mainTargeted (some "key") [] emptyFS emptyManifest
      (fun _ => Except.error "e")).2.genCalls = 0 ∧
    (mainBatch (some "key") ["plato"] 5 0 emptyFS emptyManifest
      (fun _ => Except.error "e")).1 = 0 ∧
    (mainBatch (some "key") ["plato"] 5 0 emptyFS emptyManifest
      (fun _ => Except.error "e")).2.genCalls = 0 :=
  ⟨by decide, by decide,
   (fail_fast_empty_work (some "key") ["plato"] 5 0 emptyFS emptyFS emptyManifest
     emptyManifest (fun _ => Except.error "e") (fun _ => Except.error "e") (by decide)).1,
   (fail_fast_empty_work (some "key") ["plato"] 5 0 emptyFS emptyFS emptyManifest
     emptyManifest (fun _ => Except.error "e") (fun _ => Except.error "e") (by decide)).2.1,
   ((fail_fast_empty_work (some "key") ["plato"] 5 0 emptyFS emptyFS emptyManifest
     emptyManifest (fun _ => Except.error "e") (fun _ => Except.error "e")
     (by decide)).2.2 (by decide)).1,
   ((fail_fast_empty_work (some "key") ["plato"] 5 0 emptyFS emptyFS emptyManifest
     emptyManifest (fun _ => Except.error "e") (fun _ => Except.error "e")
     (by decide)).2.2 (by decide)).2⟩

/-- C9: with no configured API credential (absent or empty, per the JS
truthiness test), both modes exit with code 1 and make zero generation
calls. -/
theorem credential_absence_fatal (apiKey : Option String) (authors names : List String)
    (s l : Nat) (fs fs2 : FS) (m m2 : Manifest) (gen gen2 : Nat → Except String String)
    (hk : keyMissing apiKey = true) :
    (mainBatch apiKey authors s l fs m gen).1 = 1 ∧
    (mainBatch apiKey authors s l fs m gen).2.genCalls = 0 ∧
    (mainTargeted apiKey names fs2 m2 gen2).1 = 1 ∧
    (mainTargeted apiKey names fs2 m2 gen2).2.genCalls = 0 := by
  refine ⟨?_, ?_, ?_, ?_⟩
  · simp [mainBatch, hk]
  · simp [mainBatch, hk, initBatchSt]
  · cases hn : names.isEmpty <;> simp [mainTargeted, hk, hn]
  · cases hn : names.isEmpty <;> simp [mainTargeted, hk, hn, initTargetSt]

/-- Witness for C9 with an absent credential. -/
theorem credential_absence_fatal_witness :
    keyMissing none = true ∧
    (mainBatch none ["plato"] 0 0 emptyFS emptyManifest (fun _ => Except.ok "img")).1 = 1 ∧
    (mainBatch none ["plato"] 0 0 emptyFS emptyManifest
      (fun _ => Except.ok "img")).2.genCalls = 0 ∧
    (mainTargeted none ["plato"] emptyFS emptyManifest (fun _ => Except.ok "img")).1 = 1 ∧
    (mainTargeted none ["plato"] emptyFS emptyManifest
      (fun _ => Except.ok "img")).2.genCalls = 0 :=
  ⟨rfl,
   (credential_absence_fatal none ["plato"] ["plato"] 0 0 emptyFS emptyFS emptyManifest
     emptyManifest (fun _ => Except.ok "img") (fun _ => Except.ok "img") rfl).1,
   (credential_absence_fatal none ["plato"] ["plato"] 0 0 emptyFS emptyFS emptyManifest
     emptyManifest (fun _ => Except.ok "img") (fun _ => Except.ok "img") rfl).2.1,
   (credential_absence_fatal none ["plato"] ["plato"] 0 0 emptyFS emptyFS emptyManifest
     emptyManifest (fun _ => Except.ok "img") (fun _ => Except.ok "img") rfl).2.2.1,
   (credential_absence_fatal none ["plato"] ["plato"] 0 0 emptyFS emptyFS emptyManifest
     emptyManifest (fun _ => Except.ok "img") (fun _ => Except.ok "img") rfl).2.2.2⟩

/-- C10: per-item manifest atomicity: an item whose generation (or file
save, both surfacing through the same caught error) fails leaves the
in-memory manifest, the persisted manifest, the manifest-save count and
the content directory untouched, in both the batch and the targeted
driver. -/
theorem manifest_atomicity_on_failure (gen gen2 : Nat → Except String String)
    (st : BatchSt) (st2 : TargetSt) (i j : Nat) (a b e f : String)
    (hE : fsExists st.fs (normalizeFilename a) = false)
    (hg : gen i = Except.error e) (hg2 : gen2 j = Except.error f) :
    ((batchStep gen st i a).manifest = st.manifest ∧
     (batchStep gen st i a).persisted = st.persisted ∧
     (batchStep gen st i a).saveCount = st.saveCount ∧
     (batchStep gen st i a).fs = st.fs) ∧
    ((targetStep gen2 st2 j b).manifest = st2.manifest ∧
     (targetStep gen2 st2 j b).persisted = st2.persisted ∧
     (targetStep gen2 st2 j b).saveCount = st2.saveCount ∧
     (targetStep gen2 st2 j b).fs = st2.fs) := by
  rw [batchStep_fail gen st i a e hE hg, targetStep_fail gen2 st2 j b f hg2]
  exact ⟨⟨rfl, rfl, rfl, rfl⟩, ⟨rfl, rfl, rfl, rfl⟩⟩

/-- Witness for C10 at a concrete failing item. -/
theorem manifest_atomicity_on_failure_witness :
    fsExists emptyFS (normalizeFilename "plato") = false ∧
    ((batchStep (fun _ => Except.error "boom") (initBatchSt emptyFS emptyManifest) 0
        "plato").manifest = (initBatchSt emptyFS emptyManifest).manifest ∧
      (batchStep (fun _ => Except.error "boom") (initBatchSt emptyFS emptyManifest) 0
        "plato").persisted = (initBatchSt emptyFS emptyManifest).persisted) ∧
    ((targetStep (fun _ => Except.error "boom") (initTargetSt emptyFS emptyManifest) 0
        "plato").manifest = (initTargetSt emptyFS emptyManifest).manifest ∧
      (targetStep (fun _ => Except.error "boom") (initTargetSt emptyFS emptyManifest) 0
        "plato").persisted = (initTargetSt emptyFS emptyManifest).persisted) :=
  ⟨rfl,
   ⟨(manifest_atomicity_on_failure (fun _ => Except.error "boom")
      (fun _ => Except.error "boom") (initBatchSt emptyFS emptyManifest)
      (initTargetSt emptyFS emptyManifest) 0 0 "plato" "plato" "boom" "boom"
      rfl rfl rfl).1.1,
    (manifest_atomicity_on_failure (fun _ => Except.error "boom")
      (fun _ => Except.error "boom") (initBatchSt emptyFS emptyManifest)
      (initTargetSt emptyFS emptyManifest) 0 0 "plato" "plato" "boom" "boom"
      rfl rfl rfl).1.2.1⟩,
   ⟨(manifest_atomicity_on_failure (fun _ => Except.error "boom")
      (fun _ => Except.error "boom") (initBatchSt emptyFS emptyManifest)
      (initTargetSt emptyFS emptyManifest) 0 0 "plato" "plato" "boom" "boom"
      rfl rfl rfl).2.1,
    (manifest_atomicity_on_failure (fun _ => Except.error "boom")
      (fun _ => Except.error "boom") (initBatchSt emptyFS emptyManifest)
      (initTargetSt emptyFS emptyManifest) 0 0 "plato" "plato" "boom" "boom"
      rfl rfl rfl).2.2.1⟩⟩

end Avatars
